import Mathlib

/-!
Shallow embedding of libsoup's HTTP/2 client message IO
(`src/libsoup/http2/soup-client-message-io-http2.c`) and proofs of the
specification claims about it.

Machine integers are modelled as `Nat`/`Int` with explicit wrap-around
where the C code relies on it.  `GError *` values are modelled as
`Option GErrorModel`.  External collaborators (the nghttp2 codec, GLib)
appear only through the values the file under verification consumes from
them; each such modelled value is documented at its definition.
-/

namespace Soup

/-- The per-stream IO state enum `SoupHTTP2IOState` (declaration order gives
the C enum values 0..7, which the code compares with `<`). -/
inductive SoupHTTP2IOState where
  | STATE_NONE
  | STATE_WRITE_HEADERS
  | STATE_WRITE_DATA
  | STATE_WRITE_DONE
  | STATE_READ_HEADERS
  | STATE_READ_DATA_START
  | STATE_READ_DATA
  | STATE_READ_DONE
  deriving DecidableEq, Repr

namespace SoupHTTP2IOState

/-- The numeric value of each enumerator, as assigned by C. -/
def toNat : SoupHTTP2IOState → Nat
  | STATE_NONE => 0
  | STATE_WRITE_HEADERS => 1
  | STATE_WRITE_DATA => 2
  | STATE_WRITE_DONE => 3
  | STATE_READ_HEADERS => 4
  | STATE_READ_DATA_START => 5
  | STATE_READ_DATA => 6
  | STATE_READ_DONE => 7

end SoupHTTP2IOState

open SoupHTTP2IOState

/-- A `GError`: GLib error domain, numeric code and message. -/
structure GErrorModel where
  domain : String
  code : Nat
  message : String
  deriving DecidableEq, Repr

/-- GLib's generic IO error domain `G_IO_ERROR`. -/
def G_IO_ERROR : String := "g-io-error-quark"

/-- GLib's `G_IO_ERROR_FAILED` code (value 0 in `GIOErrorEnum`). -/
def G_IO_ERROR_FAILED : Nat := 0

/-- `advance_state_from` (lines 282-304): the state is overwritten with `to`,
except that a backward transition (`to < data->state`, numeric enum
comparison) only warns and returns, leaving the state unchanged.  The `from`
argument is only used for the warning text, never for the result. -/
def advance_state_from (state : SoupHTTP2IOState) (_f t : SoupHTTP2IOState) :
    SoupHTTP2IOState :=
  if t.toNat < state.toNat then state else t

/-- Folding a sequence of `advance_state_from` calls over an initial state:
the per-stream state seen over time as the code performs transitions. -/
def run_advances (s : SoupHTTP2IOState) (ops : List (SoupHTTP2IOState × SoupHTTP2IOState)) :
    SoupHTTP2IOState :=
  ops.foldl (fun st p => advance_state_from st p.1 p.2) s

/-- `set_error_for_data` (lines 257-268): stores the error only when no error
is recorded yet; otherwise the incoming error is freed and discarded. -/
def set_error_for_data (current : Option GErrorModel) (error : GErrorModel) :
    Option GErrorModel :=
  match current with
  | none => some error
  | some e => some e

/-- `set_io_error` (lines 270-280): identical first-wins policy for the
connection-level error slot. -/
def set_io_error (current : Option GErrorModel) (error : GErrorModel) :
    Option GErrorModel :=
  match current with
  | none => some error
  | some e => some e

/-- The connection-level fields consulted by `is_open`.
`check_request_allowed` is the boolean the external codec call
`nghttp2_session_check_request_allowed` returns for the session. -/
structure ConnState where
  check_request_allowed : Bool
  is_shutdown : Bool
  error : Option GErrorModel

/-- `soup_client_message_io_http2_is_open` (lines 1470-1479): early-returns
`FALSE` when the codec refuses new requests, else requires not shutdown and
no latched error. -/
def soup_client_message_io_http2_is_open (io : ConnState) : Bool :=
  if !io.check_request_allowed then false
  else !io.is_shutdown && io.error.isNone

/-- `soup_client_message_io_http2_is_reusable` (lines 1481-1485): delegates to
`is_open`. -/
def soup_client_message_io_http2_is_reusable (io : ConnState) : Bool :=
  soup_client_message_io_http2_is_open io

/-- nghttp2 error code `NGHTTP2_NO_ERROR` (external library constant, value 0). -/
def NGHTTP2_NO_ERROR : Nat := 0

/-- nghttp2 error code `NGHTTP2_REFUSED_STREAM` (external library constant, 0x7). -/
def NGHTTP2_REFUSED_STREAM : Nat := 7

/-- nghttp2 error code `NGHTTP2_CANCEL` (external library constant, 0x8). -/
def NGHTTP2_CANCEL : Nat := 8

/-- The fields of `SoupHTTP2MessageData` that the verified operations read or
write: IO state, restart flag, first-wins error slot, 100-continue latch and
the codec-assigned stream id (a `guint32`, so a value `< 2^32`). -/
structure StreamData where
  state : SoupHTTP2IOState
  can_be_restarted : Bool
  error : Option GErrorModel
  expect_continue : Bool
  stream_id : Nat
  deriving DecidableEq, Repr

/-- `on_stream_close_callback` (lines 946-965): sets `can_be_restarted` when
the peer closed with `REFUSED_STREAM` while our state is `< STATE_READ_DATA`;
otherwise the stream data is untouched. -/
def on_stream_close_callback (d : StreamData) (error_code : Nat) : StreamData :=
  if error_code = NGHTTP2_REFUSED_STREAM ∧ d.state.toNat < STATE_READ_DATA.toNat then
    { d with can_be_restarted := true }
  else d

/-- The `SoupMessageIOCompletion` enum from the message IO interface. -/
inductive SoupMessageIOCompletion where
  | COMPLETE
  | INTERRUPTED
  | STOLEN
  deriving DecidableEq, Repr

/-- The externally visible effects of one `finished` call: the classification
computed at line 1374, the error code of the RST_STREAM submitted at lines
1386-1387 (`none` when `is_shutdown`, where no RST_STREAM is submitted), and
the completion argument passed to the stored completion callback at line 1400
(`none` when no callback is stored). -/
structure FinishedOutcome where
  completion : SoupMessageIOCompletion
  rst_stream_error_code : Option Nat
  callback_completion : Option SoupMessageIOCompletion
  deriving DecidableEq, Repr

/-- `soup_client_message_io_http2_finished` (lines 1362-1410), restricted to
the effects above: classifies the stream as COMPLETE iff `state ≥
STATE_READ_DONE`, uses the classification only to choose the RST_STREAM error
code, and invokes the completion callback with the literal
`SOUP_MESSAGE_IO_COMPLETE`. -/
def soup_client_message_io_http2_finished (is_shutdown has_completion_cb : Bool)
    (d : StreamData) : FinishedOutcome :=
  let completion : SoupMessageIOCompletion :=
    if d.state.toNat < STATE_READ_DONE.toNat then .INTERRUPTED else .COMPLETE
  { completion := completion
    rst_stream_error_code :=
      if is_shutdown then none
      else some (if completion = .COMPLETE then NGHTTP2_NO_ERROR else NGHTTP2_CANCEL)
    callback_completion := if has_completion_cb then some .COMPLETE else none }

/-- nghttp2 stream-weight constant `NGHTTP2_MIN_WEIGHT` (external library
constant, value 1). -/
def NGHTTP2_MIN_WEIGHT : Int := 1

/-- nghttp2 stream-weight constant `NGHTTP2_MAX_WEIGHT` (external library
constant, value 256). -/
def NGHTTP2_MAX_WEIGHT : Int := 256

/-- nghttp2 stream-weight constant `NGHTTP2_DEFAULT_WEIGHT` (external library
constant, value 16). -/
def NGHTTP2_DEFAULT_WEIGHT : Int := 16

/-- The `SoupMessagePriority` enum (soup-message.h). -/
inductive SoupMessagePriority where
  | VERY_LOW
  | LOW
  | NORMAL
  | HIGH
  | VERY_HIGH
  deriving DecidableEq, Repr

/-- `message_priority_to_weight` (lines 1122-1139), with the message's
priority property as input. -/
def message_priority_to_weight : SoupMessagePriority → Int
  | .VERY_LOW => NGHTTP2_MIN_WEIGHT
  | .LOW => (NGHTTP2_DEFAULT_WEIGHT - NGHTTP2_MIN_WEIGHT) / 2
  | .NORMAL => NGHTTP2_DEFAULT_WEIGHT
  | .HIGH => (NGHTTP2_MAX_WEIGHT - NGHTTP2_DEFAULT_WEIGHT) / 2
  | .VERY_HIGH => NGHTTP2_MAX_WEIGHT

/-- Modelled from the spec: "the weight halfway between" two weights — the
midpoint of `a` and `b`.  The claim describes LOW and HIGH with this phrase;
it is compared against the source's formula. -/
def halfway_weight (a b : Int) : Int := (a + b) / 2

/-- The C cast `(int32_t)x` applied to a `guint32` value, as performed on
`data->stream_id` in `handle_goaway` (line 659). -/
def int32_of_uint32 (n : Nat) : Int :=
  if n % 2 ^ 32 < 2 ^ 31 then ((n % 2 ^ 32 : Nat) : Int)
  else ((n % 2 ^ 32 : Nat) : Int) - 2 ^ 32

/-- The `GError` built by `handle_goaway` (lines 662-663):
`g_error_new (G_IO_ERROR, G_IO_ERROR_FAILED, "HTTP/2 Error: %s", ...)` where
the tag is `nghttp2_http2_strerror (error_code)` (external function; the
model tags the message with the numeric code instead of its rendered name). -/
def goaway_error (error_code : Nat) : GErrorModel :=
  { domain := G_IO_ERROR
    code := G_IO_ERROR_FAILED
    message := "HTTP/2 Error: " ++ toString error_code }

/-- The effect of `handle_goaway` (lines 647-666) on one active stream: the
stream is errored (via first-wins `set_error_for_data`) when
`(error_code == 0 && (int32_t)stream_id > last_stream_id) || state <
STATE_READ_DONE`; otherwise it is untouched. -/
def handle_goaway_stream (error_code : Nat) (last_stream_id : Int)
    (d : StreamData) : StreamData :=
  if (error_code = 0 ∧ int32_of_uint32 d.stream_id > last_stream_id) ∨
      d.state.toNat < STATE_READ_DONE.toNat then
    { d with error := set_error_for_data d.error (goaway_error error_code) }
  else d

/-- `handle_goaway` iterates `io->messages` and applies the per-stream effect
to every active stream. -/
def handle_goaway (error_code : Nat) (last_stream_id : Int)
    (streams : List StreamData) : List StreamData :=
  streams.map (handle_goaway_stream error_code last_stream_id)

/-- ASCII lower-casing of one character (`g_ascii_tolower`). -/
def ascii_lower (c : Char) : Char :=
  if 'A' ≤ c ∧ c ≤ 'Z' then Char.ofNat (c.toNat + 32) else c

/-- Modelled from the spec: `soup_str_case_equal` (soup-misc.c, not under
src/) — ASCII case-insensitive string equality, the equality function of the
`invalid_request_headers` hash table ("case-insensitive" per the spec). -/
def soup_str_case_equal (a b : String) : Bool :=
  a.toList.map ascii_lower == b.toList.map ascii_lower

/-- The blacklist filled into the hash table in `request_header_is_valid`
(lines 1225-1244). -/
def invalid_request_headers : List String :=
  ["Connection", "Keep-Alive", "Proxy-Connection", "Transfer-Encoding", "Upgrade"]

/-- `request_header_is_valid` (lines 1225-1244): a header name is valid iff
the case-insensitive table does not contain it. -/
def request_header_is_valid (name : String) : Bool :=
  !(invalid_request_headers.any (fun h => soup_str_case_equal name h))

/-- One `nghttp2_nv` name/value entry of the outbound HEADERS list. -/
structure NV where
  name : String
  value : String
  deriving DecidableEq, Repr

/-- The header-list construction of `send_message_request`
(lines 1284-1304): the four pseudo-headers followed by every request header
whose name passes `request_header_is_valid` (invalid ones are skipped by
`continue`). -/
def send_message_request_header_list (pseudo_headers request_headers : List NV) :
    List NV :=
  pseudo_headers ++ request_headers.filter (fun nv => request_header_is_valid nv.name)

/-- The inputs of the `:path` construction in `send_message_request`
(lines 1278-1288): the OPTIONS-ping sentinel flag, and the URI path and
query as C strings (byte lists). -/
structure MessagePath where
  is_options_ping : Bool
  path : List Nat
  query : Option (List Nat)
  deriving DecidableEq, Repr

/-- The bytes written by
`g_strdup_printf ("%s%c%s", path, query ? '?' : '\0', query)`
(line 1282), or `g_strdup ("*")` for an OPTIONS-ping sentinel (line 1280).
With no query, `%c` receives `'\0'` (byte 0) and glibc renders the NULL
`%s` argument as `"(null)"`; both land after the written NUL byte. -/
def path_and_query_bytes (m : MessagePath) : List Nat :=
  if m.is_options_ping then [42]
  else
    match m.query with
    | some q => m.path ++ [63] ++ q
    | none => m.path ++ [0] ++ [40, 110, 117, 108, 108, 41]

/-- The value a C string consumer observes: the bytes up to the first NUL,
which is what `strlen` measures when `MAKE_NV2` builds the `:path`
`nghttp2_nv` entry (lines 1252-1256, 1288). -/
def c_string_value (bytes : List Nat) : List Nat :=
  bytes.takeWhile (fun b => b != 0)

/-- The frame submissions the verified code hands to the codec. -/
inductive SubmittedFrame where
  | headers_no_provider
  | request_with_provider
  | request_no_provider
  | data_end_stream
  deriving DecidableEq, Repr

/-- The submit decision of `send_message_request` (lines 1314-1325): with a
request body stream whose headers carry the 100-continue expectation,
`expect_continue` is set and only `nghttp2_submit_headers` is called (no data
provider); otherwise `nghttp2_submit_request` is called, with a provider iff
there is a body stream.  Returns the submitted frame and the
`expect_continue` flag. -/
def send_message_request_submit (has_body_stream expects_continue : Bool) :
    SubmittedFrame × Bool :=
  if has_body_stream && expects_continue then (.headers_no_provider, true)
  else if has_body_stream then (.request_with_provider, false)
  else (.request_no_provider, false)

/-- Modelled from the spec: `SOUP_STATUS_IS_INFORMATIONAL` (soup-status.h is
not under src/) — a 1xx status ("Informational responses (1xx, including 100
Continue)"). -/
def SOUP_STATUS_IS_INFORMATIONAL (status : Nat) : Bool :=
  100 ≤ status && status < 200

/-- Modelled from the spec: `SOUP_STATUS_CONTINUE` (soup-status.h is not
under src/) — the 100 Continue status. -/
def SOUP_STATUS_CONTINUE : Nat := 100

/-- The frames submitted by `on_frame_recv_callback` while handling one
response-category HEADERS frame (lines 727-742): inside the informational
branch, `nghttp2_submit_data` with `NGHTTP2_FLAG_END_STREAM` is called
exactly when `expect_continue` is set and the status is 100; no other branch
of the callback submits DATA (line 734 holds the only `nghttp2_submit_data`
call in the file). -/
def on_recv_response_headers_submits (expect_continue : Bool) (status : Nat) :
    List SubmittedFrame :=
  if SOUP_STATUS_IS_INFORMATIONAL status then
    if expect_continue && status == SOUP_STATUS_CONTINUE then [.data_end_stream]
    else []
  else []

/-- One stream's receive trace: the statuses of the response HEADERS frames
as they arrive, paired with the frames the callback submits for each
(`expect_continue` is never cleared by the code, so it is a constant of the
trace). -/
def recv_trace (expect_continue : Bool) (statuses : List Nat) :
    List (Nat × List SubmittedFrame) :=
  statuses.map (fun s => (s, on_recv_response_headers_submits expect_continue s))

end Soup

namespace Soup

/-- C2: `advance_state_from` never moves the state backwards: a call whose
target is numerically smaller than the current state leaves the state
unchanged, every single call yields a state ≥ the current one, and hence over
any sequence of calls the state is monotonically non-decreasing. -/
theorem advance_state_from_monotone :
    (∀ (s f t : SoupHTTP2IOState), t.toNat < s.toNat → advance_state_from s f t = s) ∧
    (∀ (s f t : SoupHTTP2IOState), s.toNat ≤ (advance_state_from s f t).toNat) ∧
    (∀ (s : SoupHTTP2IOState) (ops : List (SoupHTTP2IOState × SoupHTTP2IOState)),
      s.toNat ≤ (run_advances s ops).toNat) := by
  refine ⟨?_, ?_, ?_⟩
  · intro s f t h
    simp [advance_state_from, h]
  · intro s f t
    unfold advance_state_from
    split
    · exact le_refl _
    · omega
  · intro s ops
    induction ops generalizing s with
    | nil => exact le_refl _
    | cons p rest ih =>
        calc s.toNat ≤ (advance_state_from s p.1 p.2).toNat := by
              unfold advance_state_from; split
              · exact le_refl _
              · omega
          _ ≤ (run_advances (advance_state_from s p.1 p.2) rest).toNat := ih _
          _ = (run_advances s (p :: rest)).toNat := rfl

/-- Witness for C2 at a concrete input: from `READ_DATA`, a backward call
targeting `WRITE_HEADERS` leaves the state at `READ_DATA`. -/
theorem advance_state_from_monotone_witness :
    SoupHTTP2IOState.toNat .STATE_WRITE_HEADERS < SoupHTTP2IOState.toNat .STATE_READ_DATA ∧
    advance_state_from .STATE_READ_DATA .STATE_READ_DATA .STATE_WRITE_HEADERS
      = .STATE_READ_DATA :=
  ⟨by decide,
   advance_state_from_monotone.1 .STATE_READ_DATA .STATE_READ_DATA .STATE_WRITE_HEADERS
     (by decide)⟩

/-- C7: error recording is first-wins and sticky.  Once a stream error is
stored, any sequence of further `set_error_for_data` calls leaves it
unchanged, and likewise for the connection-level `set_io_error`. -/
theorem error_recording_first_wins :
    (∀ (e : GErrorModel) (later : List GErrorModel),
      later.foldl set_error_for_data (some e) = some e) ∧
    (∀ (e : GErrorModel) (later : List GErrorModel),
      later.foldl set_io_error (some e) = some e) ∧
    (∀ (e : GErrorModel), set_error_for_data none e = some e) ∧
    (∀ (e : GErrorModel), set_io_error none e = some e) := by
  refine ⟨?_, ?_, fun e => rfl, fun e => rfl⟩
  · intro e later
    induction later with
    | nil => rfl
    | cons x rest ih => simpa [set_error_for_data] using ih
  · intro e later
    induction later with
    | nil => rfl
    | cons x rest ih => simpa [set_io_error] using ih

/-- C3: `is_open` is true exactly when the codec allows new requests, the
connection is not shut down and no connection-level error is latched; and
`is_reusable` coincides with `is_open` on every connection state. -/
theorem is_open_iff_and_is_reusable_eq :
    (∀ io : ConnState,
      soup_client_message_io_http2_is_open io = true ↔
        (io.check_request_allowed = true ∧ io.is_shutdown = false ∧ io.error = none)) ∧
    (∀ io : ConnState,
      soup_client_message_io_http2_is_reusable io = soup_client_message_io_http2_is_open io) := by
  refine ⟨?_, fun io => rfl⟩
  intro io
  unfold soup_client_message_io_http2_is_open
  rcases io with ⟨chk, shut, err⟩
  cases chk <;> cases shut <;> cases err <;> simp

/-- Witness for C3 at a concrete connection state: with the codec allowing
requests, no shutdown and no error, `is_open` is true and `is_reusable`
agrees with it. -/
theorem is_open_iff_and_is_reusable_eq_witness :
    soup_client_message_io_http2_is_open
        { check_request_allowed := true, is_shutdown := false, error := none } = true ∧
    soup_client_message_io_http2_is_reusable
        { check_request_allowed := true, is_shutdown := false, error := none }
      = soup_client_message_io_http2_is_open
        { check_request_allowed := true, is_shutdown := false, error := none } :=
  ⟨(is_open_iff_and_is_reusable_eq.1
      { check_request_allowed := true, is_shutdown := false, error := none }).mpr
      ⟨rfl, rfl, rfl⟩,
   is_open_iff_and_is_reusable_eq.2
      { check_request_allowed := true, is_shutdown := false, error := none }⟩

/-- A state other than `STATE_READ_DONE` has numeric value `< 7` (the enum is
0..7 with `STATE_READ_DONE` maximal). -/
theorem state_ne_read_done_iff (s : SoupHTTP2IOState) :
    s ≠ .STATE_READ_DONE ↔ s.toNat < 7 := by
  cases s <;> decide

/-- C8 (part of `corrected`/`confirmed` analysis): in the stream-close
callback, a stream that was not yet restartable becomes restartable exactly
when the peer error code is `REFUSED_STREAM` and the state is strictly below
`STATE_READ_DATA`; and a close with `CANCEL` leaves the stream data untouched
entirely. -/
theorem on_stream_close_restartable :
    ∀ (d : StreamData) (error_code : Nat),
      (d.can_be_restarted = false →
        ((on_stream_close_callback d error_code).can_be_restarted = true ↔
          (error_code = NGHTTP2_REFUSED_STREAM ∧
            d.state.toNat < SoupHTTP2IOState.STATE_READ_DATA.toNat))) ∧
      on_stream_close_callback d NGHTTP2_CANCEL = d := by
  intro d error_code
  constructor
  · intro h0
    unfold on_stream_close_callback
    split
    · rename_i hcond
      simpa using hcond
    · rename_i hcond
      simp only [h0]
      constructor
      · intro hfalse
        exact absurd hfalse (by simp)
      · intro hc
        exact absurd hc hcond
  · unfold on_stream_close_callback
    rw [if_neg]
    rintro ⟨h7, -⟩
    simp [NGHTTP2_CANCEL, NGHTTP2_REFUSED_STREAM] at h7

/-- Witness for C8: a stream with `can_be_restarted = false` in state
`STATE_WRITE_DONE` closed with `REFUSED_STREAM` becomes restartable, and the
same stream closed with `CANCEL` is unchanged. -/
theorem on_stream_close_restartable_witness :
    (on_stream_close_callback
        { state := .STATE_WRITE_DONE, can_be_restarted := false, error := none,
          expect_continue := false, stream_id := 1 } 7).can_be_restarted = true ∧
    on_stream_close_callback
        { state := .STATE_WRITE_DONE, can_be_restarted := false, error := none,
          expect_continue := false, stream_id := 1 } 8
      = { state := .STATE_WRITE_DONE, can_be_restarted := false, error := none,
          expect_continue := false, stream_id := 1 } :=
  ⟨((on_stream_close_restartable
      { state := .STATE_WRITE_DONE, can_be_restarted := false, error := none,
        expect_continue := false, stream_id := 1 } 7).1 rfl).mpr ⟨rfl, by decide⟩,
   (on_stream_close_restartable
      { state := .STATE_WRITE_DONE, can_be_restarted := false, error := none,
        expect_continue := false, stream_id := 1 } 0).2⟩

/-- C10: `finished` passes the literal `SOUP_MESSAGE_IO_COMPLETE` to the
stored completion callback regardless of the computed classification; the
COMPLETE/INTERRUPTED classification (COMPLETE iff `state ≥ STATE_READ_DONE`)
only selects the RST_STREAM error code (`NO_ERROR` vs `CANCEL`), submitted
only when the connection is not shutting down. -/
theorem finished_reports_complete_to_callback :
    ∀ (is_shutdown has_cb : Bool) (d : StreamData),
      (soup_client_message_io_http2_finished is_shutdown has_cb d).callback_completion
        = (if has_cb then some .COMPLETE else none) ∧
      (soup_client_message_io_http2_finished is_shutdown has_cb d).completion
        = (if d.state.toNat < SoupHTTP2IOState.STATE_READ_DONE.toNat
           then .INTERRUPTED else .COMPLETE) ∧
      (soup_client_message_io_http2_finished is_shutdown has_cb d).rst_stream_error_code
        = (if is_shutdown then none
           else some (if d.state.toNat < SoupHTTP2IOState.STATE_READ_DONE.toNat
                      then NGHTTP2_CANCEL else NGHTTP2_NO_ERROR)) := by
  intro is_shutdown has_cb d
  refine ⟨rfl, rfl, ?_⟩
  unfold soup_client_message_io_http2_finished
  by_cases hlt : d.state.toNat < SoupHTTP2IOState.STATE_READ_DONE.toNat <;>
    simp [hlt]

/-- C5 counterexample: with the nghttp2 weights (min 1, default 16, max 256),
LOW maps to 7 while the midpoint of min and default is 8, and HIGH maps to
120 while the midpoint of default and max is 136 — the code computes half the
difference of the two weights, not the weight halfway between them. -/
theorem message_priority_to_weight_not_midpoint :
    message_priority_to_weight .LOW = 7 ∧
    halfway_weight NGHTTP2_MIN_WEIGHT NGHTTP2_DEFAULT_WEIGHT = 8 ∧
    message_priority_to_weight .LOW ≠
      halfway_weight NGHTTP2_MIN_WEIGHT NGHTTP2_DEFAULT_WEIGHT ∧
    message_priority_to_weight .HIGH = 120 ∧
    halfway_weight NGHTTP2_DEFAULT_WEIGHT NGHTTP2_MAX_WEIGHT = 136 ∧
    message_priority_to_weight .HIGH ≠
      halfway_weight NGHTTP2_DEFAULT_WEIGHT NGHTTP2_MAX_WEIGHT := by
  refine ⟨rfl, rfl, ?_, rfl, rfl, ?_⟩ <;> decide

/-- C5 amended: the five priority levels map to the codec minimum weight,
half the difference between default and minimum (7), the default weight,
half the difference between maximum and default (120), and the maximum
weight. -/
theorem message_priority_to_weight_spec :
    message_priority_to_weight .VERY_LOW = NGHTTP2_MIN_WEIGHT ∧
    message_priority_to_weight .LOW
      = (NGHTTP2_DEFAULT_WEIGHT - NGHTTP2_MIN_WEIGHT) / 2 ∧
    message_priority_to_weight .NORMAL = NGHTTP2_DEFAULT_WEIGHT ∧
    message_priority_to_weight .HIGH
      = (NGHTTP2_MAX_WEIGHT - NGHTTP2_DEFAULT_WEIGHT) / 2 ∧
    message_priority_to_weight .VERY_HIGH = NGHTTP2_MAX_WEIGHT ∧
    message_priority_to_weight .VERY_LOW = 1 ∧
    message_priority_to_weight .LOW = 7 ∧
    message_priority_to_weight .NORMAL = 16 ∧
    message_priority_to_weight .HIGH = 120 ∧
    message_priority_to_weight .VERY_HIGH = 256 := by
  decide

/-- C1 counterexample: a graceful GOAWAY (`error_code = 0`,
`last_stream_id = 5`) errors an active stream with `stream_id = 1 ≤ 5` as
soon as its state is below `STATE_READ_DONE` — the claim says such a stream
is left unmarked. -/
theorem handle_goaway_marks_stream_within_range :
    int32_of_uint32 1 ≤ 5 ∧
    (handle_goaway_stream 0 5
        { state := .STATE_NONE, can_be_restarted := false, error := none,
          expect_continue := false, stream_id := 1 }).error
      = some (goaway_error 0) := by
  constructor
  · decide
  · rfl

/-- C1 amended: on a peer GOAWAY with `error_code = 0` and
`last_stream_id = k`, `handle_goaway` leaves an active stream untouched iff
its (int32-cast) stream id is ≤ k AND it has already reached
`STATE_READ_DONE`; every stream with stream id > k OR state below
`STATE_READ_DONE` has an error recorded first-wins (the GOAWAY error if none
was stored, the stored one otherwise), its other fields unchanged. -/
theorem handle_goaway_graceful_spec :
    ∀ (k : Int) (d : StreamData),
      (int32_of_uint32 d.stream_id ≤ k ∧ d.state = .STATE_READ_DONE →
        handle_goaway_stream 0 k d = d) ∧
      (k < int32_of_uint32 d.stream_id ∨ d.state ≠ .STATE_READ_DONE →
        (handle_goaway_stream 0 k d).error = some (d.error.getD (goaway_error 0)) ∧
        (handle_goaway_stream 0 k d).state = d.state ∧
        (handle_goaway_stream 0 k d).stream_id = d.stream_id ∧
        (handle_goaway_stream 0 k d).can_be_restarted = d.can_be_restarted) ∧
      (∀ streams : List StreamData,
        handle_goaway 0 k streams = streams.map (handle_goaway_stream 0 k)) := by
  intro k d
  refine ⟨?_, ?_, fun streams => rfl⟩
  · rintro ⟨hle, hdone⟩
    unfold handle_goaway_stream
    rw [if_neg]
    rintro (⟨-, hgt⟩ | hlt)
    · exact absurd hgt (not_lt.mpr hle)
    · rw [hdone] at hlt
      exact absurd hlt (by decide)
  · intro h
    have hcond : (0 = 0 ∧ int32_of_uint32 d.stream_id > k) ∨
        d.state.toNat < SoupHTTP2IOState.STATE_READ_DONE.toNat := by
      rcases h with h | h
      · exact Or.inl ⟨rfl, h⟩
      · exact Or.inr ((state_ne_read_done_iff d.state).mp h)
    unfold handle_goaway_stream
    rw [if_pos hcond]
    rcases d with ⟨st, cbr, err, ec, sid⟩
    cases err <;> simp [set_error_for_data]

/-- Witness for C1 amended: with `k = 5`, a finished stream (`stream_id = 3`,
`STATE_READ_DONE`) is untouched, while a stream with `stream_id = 7 > 5` and
no stored error receives the GOAWAY error. -/
theorem handle_goaway_graceful_spec_witness :
    handle_goaway_stream 0 5
        { state := .STATE_READ_DONE, can_be_restarted := false, error := none,
          expect_continue := false, stream_id := 3 }
      = { state := .STATE_READ_DONE, can_be_restarted := false, error := none,
          expect_continue := false, stream_id := 3 } ∧
    (handle_goaway_stream 0 5
        { state := .STATE_READ_DONE, can_be_restarted := false, error := none,
          expect_continue := false, stream_id := 7 }).error
      = some (goaway_error 0) :=
  ⟨(handle_goaway_graceful_spec 5
      { state := .STATE_READ_DONE, can_be_restarted := false, error := none,
        expect_continue := false, stream_id := 3 }).1 ⟨by decide, rfl⟩,
   ((handle_goaway_graceful_spec 5
      { state := .STATE_READ_DONE, can_be_restarted := false, error := none,
        expect_continue := false, stream_id := 7 }).2.1 (Or.inl (by decide))).1⟩

/-- C4: a request header is dropped from the outbound HEADERS list exactly
when its name is case-insensitively one of Connection, Keep-Alive,
Proxy-Connection, Transfer-Encoding, Upgrade; every request header with any
other name is appended (after the pseudo-headers). -/
theorem request_headers_filtered :
    (∀ name : String,
      request_header_is_valid name = false ↔
        (soup_str_case_equal name "Connection" = true ∨
         soup_str_case_equal name "Keep-Alive" = true ∨
         soup_str_case_equal name "Proxy-Connection" = true ∨
         soup_str_case_equal name "Transfer-Encoding" = true ∨
         soup_str_case_equal name "Upgrade" = true)) ∧
    (∀ (pseudo req : List NV) (nv : NV), nv ∈ req →
      (nv ∈ send_message_request_header_list pseudo req ↔
        nv ∈ pseudo ∨ request_header_is_valid nv.name = true)) := by
  constructor
  · intro name
    simp only [request_header_is_valid, invalid_request_headers, List.any_cons,
      List.any_nil, Bool.not_eq_false', Bool.or_eq_true, Bool.or_eq_false_iff]
    tauto
  · intro pseudo req nv hmem
    simp [send_message_request_header_list, List.mem_filter, hmem]

/-- Witness for C4: `coNNecTion` (mixed case) is filtered out, while
`Content-Type` is kept: with no pseudo-headers and a single-request-header
list, the kept header is a member of the outbound list. -/
theorem request_headers_filtered_witness :
    request_header_is_valid "coNNecTion" = false ∧
    (NV.mk "Content-Type" "text/plain" ∈
      send_message_request_header_list []
        [NV.mk "Content-Type" "text/plain"]) :=
  ⟨(request_headers_filtered.1 "coNNecTion").mpr (Or.inl (by decide)),
   (request_headers_filtered.2 [] [NV.mk "Content-Type" "text/plain"]
      (NV.mk "Content-Type" "text/plain") (by simp)).mpr
     (Or.inr (by decide))⟩

/-- `takeWhile` passes over a prefix on which the predicate holds. -/
theorem takeWhile_append_of_forall {p : Nat → Bool} {l1 l2 : List Nat}
    (h : ∀ x ∈ l1, p x = true) :
    (l1 ++ l2).takeWhile p = l1 ++ l2.takeWhile p := by
  induction l1 with
  | nil => rfl
  | cons a t ih =>
      have ha : p a = true := h a (by simp)
      have ht : ∀ x ∈ t, p x = true := fun x hx => h x (by simp [hx])
      simp [List.takeWhile_cons, ha, ih ht]

/-- `takeWhile` keeps a list on which the predicate holds everywhere. -/
theorem takeWhile_eq_self_of_forall {p : Nat → Bool} {l : List Nat}
    (h : ∀ x ∈ l, p x = true) : l.takeWhile p = l := by
  induction l with
  | nil => rfl
  | cons a t ih =>
      have ha : p a = true := h a (by simp)
      have ht : ∀ x ∈ t, p x = true := fun x hx => h x (by simp [hx])
      simp [List.takeWhile_cons, ha, ih ht]

/-- C9: the `:path` value handed to the codec (the C string up to the first
NUL) is `*` (byte 42) for an OPTIONS-ping sentinel, the URI path when there
is no query, and `path ++ "?" ++ query` (63 is the `?` byte) when a query is
present — for NUL-free path and query bytes, as C strings are. -/
theorem path_pseudo_header_spec :
    ∀ m : MessagePath,
      (0 : Nat) ∉ m.path →
      (∀ q, m.query = some q → (0 : Nat) ∉ q) →
      (m.is_options_ping = true →
        c_string_value (path_and_query_bytes m) = [42]) ∧
      (m.is_options_ping = false → m.query = none →
        c_string_value (path_and_query_bytes m) = m.path) ∧
      (∀ q, m.is_options_ping = false → m.query = some q →
        c_string_value (path_and_query_bytes m) = m.path ++ [63] ++ q) := by
  intro m hpath hquery
  have hpath63 : ∀ x ∈ m.path, (x != 0) = true := by
    intro x hx
    simp only [bne_iff_ne, ne_eq]
    intro h0
    exact hpath (h0 ▸ hx)
  refine ⟨?_, ?_, ?_⟩
  · intro hping
    simp [c_string_value, path_and_query_bytes, hping]
  · intro hping hq
    simp only [path_and_query_bytes, hping, if_neg Bool.false_ne_true, hq,
      c_string_value]
    rw [show m.path ++ [0] ++ [40, 110, 117, 108, 108, 41]
          = m.path ++ ([0] ++ [40, 110, 117, 108, 108, 41]) by simp,
        takeWhile_append_of_forall hpath63]
    simp [List.takeWhile_cons]
  · intro q hping hq
    have hq63 : ∀ x ∈ q, (x != 0) = true := by
      intro x hx
      simp only [bne_iff_ne, ne_eq]
      intro h0
      exact hquery q hq (h0 ▸ hx)
    simp only [path_and_query_bytes, hping, if_neg Bool.false_ne_true, hq,
      c_string_value]
    refine takeWhile_eq_self_of_forall ?_
    intro x hx
    rcases List.mem_append.mp hx with hx | hx
    · rcases List.mem_append.mp hx with hx | hx
      · exact hpath63 x hx
      · simp at hx
        simp [hx]
    · exact hq63 x hx

/-- Witness for C9 at concrete inputs: path `/x` (bytes 47, 120), no query
gives `:path` value `/x`; path `/x` with query `a` (byte 97) gives
`/x?a`; an OPTIONS-ping gives `*`. -/
theorem path_pseudo_header_spec_witness :
    c_string_value (path_and_query_bytes
        { is_options_ping := false, path := [47, 120], query := none })
      = [47, 120] ∧
    c_string_value (path_and_query_bytes
        { is_options_ping := false, path := [47, 120], query := some [97] })
      = [47, 120] ++ [63] ++ [97] ∧
    c_string_value (path_and_query_bytes
        { is_options_ping := true, path := [47, 120], query := none })
      = [42] :=
  ⟨(path_pseudo_header_spec
      { is_options_ping := false, path := [47, 120], query := none }
      (by decide) (by simp)).2.1 rfl rfl,
   (path_pseudo_header_spec
      { is_options_ping := false, path := [47, 120], query := some [97] }
      (by decide) (by intro q hq; cases hq; decide)).2.2 [97] rfl rfl,
   (path_pseudo_header_spec
      { is_options_ping := true, path := [47, 120], query := none }
      (by decide) (by simp)).1 rfl⟩

/-- C6: a request with a body and the 100-continue expectation submits only
HEADERS with no body provider and latches `expect_continue`; over any receive
trace, DATA (with END_STREAM) is submitted only while handling a response
HEADERS frame whose status is exactly 100, and it is submitted when a 100
arrives. -/
theorem expect_continue_no_data_before_100 :
    (send_message_request_submit true true).1 = .headers_no_provider ∧
    (send_message_request_submit true true).2 = true ∧
    (∀ (statuses : List Nat) (p : Nat × List SubmittedFrame),
      p ∈ recv_trace true statuses → .data_end_stream ∈ p.2 → p.1 = 100) ∧
    on_recv_response_headers_submits true 100 = [.data_end_stream] := by
  refine ⟨rfl, rfl, ?_, rfl⟩
  intro statuses p hp hdata
  rcases List.mem_map.mp hp with ⟨s, hs, rfl⟩
  simp only [on_recv_response_headers_submits] at hdata
  by_cases hinf : SOUP_STATUS_IS_INFORMATIONAL s = true
  · rw [if_pos hinf] at hdata
    by_cases h100 : (true && s == SOUP_STATUS_CONTINUE) = true
    · simpa [SOUP_STATUS_CONTINUE] using h100
    · rw [if_neg h100] at hdata
      simp at hdata
  · rw [if_neg hinf] at hdata
    simp at hdata

/-- Witness for C6: over the receive trace `[100, 200]` with
`expect_continue` set, the only DATA submission happens at the status-100
event, and the submit path for (body, 100-continue) is HEADERS-only. -/
theorem expect_continue_no_data_before_100_witness :
    (send_message_request_submit true true).1 = .headers_no_provider ∧
    (100, [SubmittedFrame.data_end_stream]) ∈ recv_trace true [100, 200] ∧
    ((100, [SubmittedFrame.data_end_stream]) : Nat × List SubmittedFrame).1 = 100 :=
  ⟨expect_continue_no_data_before_100.1,
   by decide,
   expect_continue_no_data_before_100.2.2.1 [100, 200]
     (100, [SubmittedFrame.data_end_stream]) (by decide) (by decide)⟩

end Soup
